import Mathlib

/-!
Verification of the rating aggregation and review lifecycle subsystem of a
games catalog-and-review backend.

The embedding models the JavaScript controllers faithfully:
  - `updateGameRating` (the Rating Aggregator) from ratingCalculator,
  - `addReview`, `updateReview`, `deleteReview`, `deleteReviewByAdmin`
    (the Review Lifecycle Controller) from reviewController.
JavaScript value quirks that the code relies on are modelled explicitly:
truthiness of numbers and strings (0 and the empty string are falsy), the
distinction between a stored `null` rating and an absent (`undefined`)
request field under strict equality, `parseInt` truncation, and `toFixed(1)`
rounding to one decimal place.  Store failures during the recompute step are
modelled by a boolean fault flag on the aggregator call.
-/

namespace VGB

/-- A stored JavaScript value for the rating field of a review record:
`null`, `undefined` (field missing), a number, or a non-numeric value. -/
inductive JVal where
  | vnull
  | vundef
  | vnum (q : ℚ)
  | vstr (s : String)
deriving Repr, DecidableEq

/-- The rating field of an incoming request body: absent, explicit null,
or a number. -/
inductive JReq where
  | undef
  | jnull
  | jnum (q : ℚ)
deriving Repr, DecidableEq

/-- JavaScript truthiness of the request rating: only a nonzero number is
truthy. -/
def JReq.truthy : JReq → Bool
  | .jnum q => q != 0
  | _ => false

/-- Numeric value of a request rating (only meaningful when truthy). -/
def JReq.value : JReq → ℚ
  | .jnum q => q
  | _ => 0

/-- JavaScript truthiness of the request text: a nonempty string. -/
def textTruthy : Option String → Bool
  | some s => s != ""
  | none => false

/-- JavaScript strict equality between a request rating value and a stored
rating value.  In particular an absent request field is `undefined`, which
is strictly distinct from a stored `null`. -/
def jsStrictEq : JReq → JVal → Bool
  | .jnull, .vnull => true
  | .undef, .vundef => true
  | .jnum q, .vnum r => q == r
  | _, _ => false

/-- JavaScript `parseInt` applied to a number: truncation toward zero. -/
def jsParseInt (q : ℚ) : Int := if 0 ≤ q then ⌊q⌋ else -⌊-q⌋

/-- A review record as stored in the review collection. -/
structure Review where
  rid : Nat
  userId : String
  gameId : String
  text : Option String
  rating : JVal
  posted : Nat
deriving Repr, DecidableEq

/-- A game record as stored in the game database (fields written by
addGame). -/
structure Game where
  title : String
  description : String
  releaseDate : String
  platform : String
  genre : String
  image : String
  imageBase64 : String
  upcoming : Bool
  released : Bool
  averageRating : ℚ
  totalRatings : Nat
deriving Repr, DecidableEq

/-- The combined state of the two stores: the review collection, the game
database (an association list keyed by game identifier), and the next
review identifier the review store will assign. -/
structure St where
  reviews : List Review
  games : List (String × Game)
  nextId : Nat
deriving Repr, DecidableEq

/-- The rating-validity check of updateGameRating: the stored rating exists,
is a number, and lies in the closed range 1..5. -/
def isValidRating : JVal → Bool
  | .vnum q => decide (1 ≤ q) && decide (q ≤ 5)
  | _ => false

/-- Numeric value of a stored rating (only meaningful when valid). -/
def ratingValue : JVal → ℚ
  | .vnum q => q
  | _ => 0

/-- Rounding to one decimal place as toFixed(1) does: nearest, ties upward
(away from zero for the nonnegative averages that arise here). -/
def round1 (q : ℚ) : ℚ := ((⌊q * 10 + 1 / 2⌋ : ℤ) : ℚ) / 10

/-- The reviews the aggregator reads: all reviews whose gameId matches. -/
def reviewsForGame (reviews : List Review) (gameId : String) : List Review :=
  reviews.filter (fun r => r.gameId == gameId)

/-- The accumulation loop of updateGameRating: fold over the game's reviews
adding valid ratings into the running total and count. -/
def tally (reviews : List Review) : ℚ × Nat :=
  reviews.foldl
    (fun acc r =>
      if isValidRating r.rating then (acc.1 + ratingValue r.rating, acc.2 + 1)
      else acc)
    (0, 0)

/-- The partial update performed against the game database: only the
averageRating and totalRatings fields of the matching record are written. -/
def applyRatingUpdate (games : List (String × Game)) (gameId : String)
    (avg : ℚ) (cnt : Nat) : List (String × Game) :=
  games.map (fun p =>
    if p.1 == gameId then
      (p.1, { p.2 with averageRating := avg, totalRatings := cnt })
    else p)

/-- The Rating Aggregator (updateGameRating): read all reviews of the game,
tally the valid ratings, compute the average rounded to one decimal place
(0 when no valid rating exists), write the two aggregate fields back to the
game record, and return them. -/
def updateGameRating (st : St) (gameId : String) : (ℚ × Nat) × St :=
  let pair := tally (reviewsForGame st.reviews gameId)
  let count := pair.2
  let averageRating : ℚ := if 0 < count then round1 (pair.1 / count) else 0
  (⟨averageRating, count⟩,
   { st with games := applyRatingUpdate st.games gameId averageRating count })

/-- The aggregator call as seen by its callers: when the underlying store
fails the error is logged and rethrown, so the caller observes an
exception; otherwise the recompute runs to completion. -/
def updateGameRatingE (st : St) (gameId : String) (storeFails : Bool) :
    Except Unit ((ℚ × Nat) × St) :=
  if storeFails then .error () else .ok (updateGameRating st gameId)

/-- Outcome of a controller operation, abstracting the HTTP status of the
response: 201/200 successes, 400, 404, 403 and the catch-all 500. -/
inductive Outcome where
  | created (rid : Nat)
  | updatedOk
  | deletedOk
  | validationError
  | notFoundError
  | authorizationError
  | serverError
deriving Repr, DecidableEq

/-- addReview: validate that text or rating is truthy and that a truthy
rating lies in 1..5, check the game exists, persist the review (falsy text
and falsy rating stored as null, numeric rating through parseInt), then
recompute the game rating when the request rating was truthy.  Returns the
outcome, the resulting state, and how many recomputes were invoked. -/
def addReview (st : St) (userId gameId : String) (text : Option String)
    (rating : JReq) (now : Nat) (recomputeFails : Bool) :
    Outcome × St × Nat :=
  if ¬ textTruthy text ∧ ¬ rating.truthy then (.validationError, st, 0)
  else if rating.truthy ∧ (rating.value < 1 ∨ 5 < rating.value) then
    (.validationError, st, 0)
  else if (st.games.lookup gameId).isNone then (.notFoundError, st, 0)
  else
    let reviewData : Review :=
      { rid := st.nextId, userId := userId, gameId := gameId
        text := if textTruthy text then text else none
        rating :=
          if rating.truthy then JVal.vnum ((jsParseInt rating.value : ℤ) : ℚ)
          else JVal.vnull
        posted := now }
    let st1 : St :=
      { st with reviews := st.reviews ++ [reviewData], nextId := st.nextId + 1 }
    if rating.truthy then
      match updateGameRatingE st1 gameId recomputeFails with
      | .ok r => (.created st.nextId, r.2, 1)
      | .error _ => (.serverError, st1, 1)
    else (.created st.nextId, st1, 0)

/-- updateReview: fetch the review, check ownership, run the same
validation as addReview, overwrite both stored fields (falsy text and
falsy rating stored as null), then recompute exactly when the raw request
rating is not strictly equal to the previously stored rating. -/
def updateReview (st : St) (reviewId : Nat) (userId : String)
    (text : Option String) (rating : JReq) (recomputeFails : Bool) :
    Outcome × St × Nat :=
  match st.reviews.find? (fun r => r.rid == reviewId) with
  | none => (.notFoundError, st, 0)
  | some reviewData =>
    if reviewData.userId != userId then (.authorizationError, st, 0)
    else if ¬ textTruthy text ∧ ¬ rating.truthy then (.validationError, st, 0)
    else if rating.truthy ∧ (rating.value < 1 ∨ 5 < rating.value) then
      (.validationError, st, 0)
    else
      let newText : Option String := if textTruthy text then text else none
      let newRating : JVal :=
        if rating.truthy then JVal.vnum ((jsParseInt rating.value : ℤ) : ℚ)
        else JVal.vnull
      let st1 : St :=
        { st with reviews := st.reviews.map (fun r =>
            if r.rid == reviewId then
              { r with text := newText, rating := newRating }
            else r) }
      if ¬ jsStrictEq rating reviewData.rating then
        match updateGameRatingE st1 reviewData.gameId recomputeFails with
        | .ok r => (.updatedOk, r.2, 1)
        | .error _ => (.serverError, st1, 1)
      else (.updatedOk, st1, 0)

/-- deleteReview: fetch the review, allow the owner or an admin, remove the
review, then recompute exactly when the stored rating was not null. -/
def deleteReview (st : St) (reviewId : Nat) (userId : String)
    (isAdmin : Bool) (recomputeFails : Bool) : Outcome × St × Nat :=
  match st.reviews.find? (fun r => r.rid == reviewId) with
  | none => (.notFoundError, st, 0)
  | some reviewData =>
    let isOwner := reviewData.userId == userId
    if ¬ isAdmin ∧ ¬ isOwner then (.authorizationError, st, 0)
    else
      let gameId := reviewData.gameId
      let hadRating := reviewData.rating != JVal.vnull
      let st1 : St :=
        { st with reviews := st.reviews.filter (fun r => ¬ r.rid == reviewId) }
      if hadRating then
        match updateGameRatingE st1 gameId recomputeFails with
        | .ok r => (.deletedOk, r.2, 1)
        | .error _ => (.serverError, st1, 1)
      else (.deletedOk, st1, 0)

/-- deleteReviewByAdmin: fetch the review, remove it with no ownership
check, then recompute exactly when the stored rating was not null. -/
def deleteReviewByAdmin (st : St) (reviewId : Nat) (recomputeFails : Bool) :
    Outcome × St × Nat :=
  match st.reviews.find? (fun r => r.rid == reviewId) with
  | none => (.notFoundError, st, 0)
  | some reviewData =>
    let gameId := reviewData.gameId
    let hadRating := reviewData.rating != JVal.vnull
    let st1 : St :=
      { st with reviews := st.reviews.filter (fun r => ¬ r.rid == reviewId) }
    if hadRating then
      match updateGameRatingE st1 gameId recomputeFails with
      | .ok r => (.deletedOk, r.2, 1)
      | .error _ => (.serverError, st1, 1)
    else (.deletedOk, st1, 0)

/-- Specification-side view of the aggregation: the list of valid rating
values among a game's reviews. -/
def validRatingsOf (reviews : List Review) (gameId : String) : List ℚ :=
  ((reviewsForGame reviews gameId).filter
    (fun r => isValidRating r.rating)).map (fun r => ratingValue r.rating)

/-! ## Concrete store states used to instantiate the theorems -/

/-- A sample game record. -/
def sampleGame : Game :=
  { title := "T", description := "D", releaseDate := "2024", platform := "PC"
    genre := "RPG", image := "u", imageBase64 := "", upcoming := false
    released := true, averageRating := 0, totalRatings := 0 }

/-- A sample review record. -/
def mkReview (i : Nat) (u g : String) (t : Option String) (r : JVal) :
    Review :=
  { rid := i, userId := u, gameId := g, text := t, rating := r, posted := i }

/-- The spec scenario: reviews with ratings 5, 3 and null for game g1. -/
def stA : St :=
  { reviews := [mkReview 0 "u1" "g1" none (JVal.vnum 5),
                mkReview 1 "u2" "g1" none (JVal.vnum 3),
                mkReview 2 "u3" "g1" (some "ok") JVal.vnull]
    games := [("g1", sampleGame)], nextId := 3 }

/-- One game, no reviews yet. -/
def stB : St := { reviews := [], games := [("g1", sampleGame)], nextId := 0 }

/-- One review with a null rating for game g1. -/
def stC : St :=
  { reviews := [mkReview 0 "u1" "g1" (some "old") JVal.vnull]
    games := [("g1", sampleGame)], nextId := 1 }

/-- One review with rating 4 for game g1. -/
def stD : St :=
  { reviews := [mkReview 0 "u1" "g1" (some "old") (JVal.vnum 4)]
    games := [("g1", sampleGame)], nextId := 1 }

/-! ## Helper lemmas -/

/-- The accumulation loop computes, over any initial accumulator, the sum
and the count of the valid ratings. -/
lemma tally_go (l : List Review) (a : ℚ) (n : Nat) :
    l.foldl
      (fun acc r =>
        if isValidRating r.rating then (acc.1 + ratingValue r.rating, acc.2 + 1)
        else acc)
      (a, n)
    = (a + ((l.filter (fun r => isValidRating r.rating)).map
          (fun r => ratingValue r.rating)).sum,
       n + (l.filter (fun r => isValidRating r.rating)).length) := by
  induction l generalizing a n with
  | nil => simp
  | cons x xs ih =>
    by_cases h : isValidRating x.rating
    · simp only [List.foldl_cons, h, if_true, List.filter_cons_of_pos,
        List.map_cons, List.sum_cons, List.length_cons, ih, Prod.mk.injEq]
      exact ⟨by ring, by omega⟩
    · simp [h, ih]

/-- The imperative tally equals the functional sum/length view. -/
lemma tally_eq (l : List Review) :
    tally l
      = (((l.filter (fun r => isValidRating r.rating)).map
            (fun r => ratingValue r.rating)).sum,
         (l.filter (fun r => isValidRating r.rating)).length) := by
  simpa [tally] using tally_go l 0 0

/-- Looking a key up after the aggregator's partial update: the matching
record gets its two aggregate fields overwritten, any other record is
returned unchanged. -/
lemma lookup_applyRatingUpdate (games : List (String × Game))
    (gameId k : String) (avg : ℚ) (cnt : Nat) :
    (applyRatingUpdate games gameId avg cnt).lookup k
      = (games.lookup k).map (fun g =>
          if k = gameId then
            { g with averageRating := avg, totalRatings := cnt }
          else g) := by
  induction games with
  | nil => simp [applyRatingUpdate]
  | cons p t ih =>
    obtain ⟨a, g⟩ := p
    by_cases h1 : a = gameId
    · subst h1
      by_cases h2 : k = a
      · subst h2
        simp [applyRatingUpdate, List.lookup_cons, ih]
      · have hb : (k == a) = false := by simp [h2]
        simp [applyRatingUpdate, List.lookup_cons, hb, h2] at ih ⊢
        exact ih
    · by_cases h2 : k = a
      · subst h2
        simp [applyRatingUpdate, List.lookup_cons, h1, ih, Ne.symm h1]
      · have hb : (k == a) = false := by simp [h2]
        simp [applyRatingUpdate, List.lookup_cons, hb, h1, h2] at ih ⊢
        exact ih

/-- The partial update is idempotent when repeated with the same values. -/
lemma applyRatingUpdate_idem (games : List (String × Game))
    (gameId : String) (avg : ℚ) (cnt : Nat) :
    applyRatingUpdate (applyRatingUpdate games gameId avg cnt) gameId avg cnt
      = applyRatingUpdate games gameId avg cnt := by
  unfold applyRatingUpdate
  rw [List.map_map]
  refine List.map_congr_left ?_
  intro p _
  obtain ⟨a, g⟩ := p
  by_cases h : a = gameId
  · subst h
    simp
  · simp [h]

/-! ## Claims about the Rating Aggregator -/

/-- C1: for every game and every set of stored reviews, updateGameRating
returns and writes totalRatings equal to the number of the game's reviews
whose rating is a number in the closed range 1..5, and averageRating equal
to the sum of those ratings divided by that count rounded to one decimal
place; when no such reviews exist it writes averageRating 0 and
totalRatings 0. -/
theorem C1_recompute_correct (st : St) (gameId : String) (g : Game)
    (hg : st.games.lookup gameId = some g) :
    (updateGameRating st gameId).1.2
        = (validRatingsOf st.reviews gameId).length ∧
    (updateGameRating st gameId).1.1
        = (if 0 < (validRatingsOf st.reviews gameId).length then
            round1 ((validRatingsOf st.reviews gameId).sum
              / ((validRatingsOf st.reviews gameId).length : ℚ))
          else 0) ∧
    ((updateGameRating st gameId).2).games.lookup gameId
        = some { g with averageRating := (updateGameRating st gameId).1.1,
                        totalRatings := (updateGameRating st gameId).1.2 } := by
  have ht := tally_eq (reviewsForGame st.reviews gameId)
  refine ⟨?_, ?_, ?_⟩ <;>
    simp [updateGameRating, ht, validRatingsOf, lookup_applyRatingUpdate, hg]

/-- Witness for C1 at the spec scenario: ratings 5, 3 and one null review
give average 4 and count 2, written into the game record. -/
theorem C1_recompute_correct_witness :
    stA.games.lookup "g1" = some sampleGame ∧
    (updateGameRating stA "g1").1.2 = (validRatingsOf stA.reviews "g1").length ∧
    (updateGameRating stA "g1").1.1
        = (if 0 < (validRatingsOf stA.reviews "g1").length then
            round1 ((validRatingsOf stA.reviews "g1").sum
              / ((validRatingsOf stA.reviews "g1").length : ℚ))
          else 0) ∧
    ((updateGameRating stA "g1").2).games.lookup "g1"
        = some { sampleGame with
                  averageRating := (updateGameRating stA "g1").1.1,
                  totalRatings := (updateGameRating stA "g1").1.2 } ∧
    (updateGameRating stA "g1").1 = (4, 2) := by
  have h := C1_recompute_correct stA "g1" sampleGame rfl
  refine ⟨rfl, h.1, h.2.1, h.2.2, ?_⟩
  norm_num [updateGameRating, tally, reviewsForGame, stA, sampleGame, mkReview,
    isValidRating, ratingValue, round1, List.filter, List.foldl]

/-- C9: recompute is idempotent: running updateGameRating again on the
state it produced, with no intervening review change, returns the same
aggregate pair and the same final state. -/
theorem C9_recompute_idempotent (st : St) (gameId : String) :
    updateGameRating (updateGameRating st gameId).2 gameId
      = updateGameRating st gameId := by
  simp [updateGameRating, reviewsForGame, applyRatingUpdate_idem]

/-- C7: the moderator delete has exactly the same behavior (outcome,
resulting stores, recompute count) as the owner/admin delete invoked with
the admin flag set, for every state, review identifier and requesting
user. -/
theorem C7_admin_delete_equiv (st : St) (reviewId : Nat) (userId : String)
    (recomputeFails : Bool) :
    deleteReviewByAdmin st reviewId recomputeFails
      = deleteReview st reviewId userId true recomputeFails := by
  unfold deleteReview deleteReviewByAdmin
  cases st.reviews.find? (fun r => r.rid == reviewId) with
  | none => rfl
  | some rd => simp

/-- C8: the write performed by recompute touches only the averageRating and
totalRatings fields of the game's record; every other field of every game
record, the review collection and the identifier counter are unchanged. -/
theorem C8_recompute_frame (st : St) (gameId k : String) (g' : Game)
    (h : (updateGameRating st gameId).2.games.lookup k = some g') :
    (updateGameRating st gameId).2.reviews = st.reviews ∧
    (updateGameRating st gameId).2.nextId = st.nextId ∧
    ∃ g, st.games.lookup k = some g ∧
      g'.title = g.title ∧ g'.description = g.description ∧
      g'.releaseDate = g.releaseDate ∧ g'.platform = g.platform ∧
      g'.genre = g.genre ∧ g'.image = g.image ∧
      g'.imageBase64 = g.imageBase64 ∧ g'.upcoming = g.upcoming ∧
      g'.released = g.released ∧
      (k ≠ gameId → g' = g) := by
  refine ⟨rfl, rfl, ?_⟩
  simp only [updateGameRating] at h
  rw [lookup_applyRatingUpdate] at h
  cases hg : st.games.lookup k with
  | none => rw [hg] at h; simp at h
  | some g =>
    rw [hg] at h
    refine ⟨g, rfl, ?_⟩
    by_cases hk : k = gameId
    · simp only [hk, if_true, Option.map_some'] at h
      cases h
      simp [hk]
    · simp only [hk, if_false, Option.map_some'] at h
      cases h
      simp

/-- Witness for C8 at the spec scenario: the g1 record after recompute has
average 4 and count 2 with all descriptive fields intact. -/
theorem C8_recompute_frame_witness :
    ((updateGameRating stA "g1").2.games.lookup "g1"
        = some { sampleGame with averageRating := 4, totalRatings := 2 }) ∧
    ((updateGameRating stA "g1").2.reviews = stA.reviews ∧
     (updateGameRating stA "g1").2.nextId = stA.nextId ∧
     ∃ g, stA.games.lookup "g1" = some g ∧
       ({ sampleGame with averageRating := 4, totalRatings := 2 : Game }).title
           = g.title ∧
       ({ sampleGame with averageRating := 4, totalRatings := 2 : Game }).description
           = g.description ∧
       ({ sampleGame with averageRating := 4, totalRatings := 2 : Game }).releaseDate
           = g.releaseDate ∧
       ({ sampleGame with averageRating := 4, totalRatings := 2 : Game }).platform
           = g.platform ∧
       ({ sampleGame with averageRating := 4, totalRatings := 2 : Game }).genre
           = g.genre ∧
       ({ sampleGame with averageRating := 4, totalRatings := 2 : Game }).image
           = g.image ∧
       ({ sampleGame with averageRating := 4, totalRatings := 2 : Game }).imageBase64
           = g.imageBase64 ∧
       ({ sampleGame with averageRating := 4, totalRatings := 2 : Game }).upcoming
           = g.upcoming ∧
       ({ sampleGame with averageRating := 4, totalRatings := 2 : Game }).released
           = g.released ∧
       ("g1" ≠ "g1" →
         { sampleGame with averageRating := 4, totalRatings := 2 : Game } = g)) := by
  have hc : (updateGameRating stA "g1").2.games.lookup "g1"
      = some { sampleGame with averageRating := 4, totalRatings := 2 } := by
    norm_num [updateGameRating, applyRatingUpdate, tally, reviewsForGame, stA,
      sampleGame, mkReview, isValidRating, ratingValue, round1, List.filter,
      List.foldl, List.lookup]
  exact ⟨hc, C8_recompute_frame stA "g1" "g1"
    { sampleGame with averageRating := 4, totalRatings := 2 } hc⟩

/-! ## Claims about the Review Lifecycle Controller -/

/-- Finding the review after the controller's overwrite of its two stored
fields. -/
lemma find_map_overwrite (l : List Review) (rid : Nat) (rd : Review)
    (nt : Option String) (nr : JVal)
    (hf : l.find? (fun r => r.rid == rid) = some rd) :
    (l.map (fun r =>
      if r.rid == rid then { r with text := nt, rating := nr } else r)).find?
        (fun r => r.rid == rid)
      = some { rd with text := nt, rating := nr } := by
  induction l with
  | nil => simp at hf
  | cons x xs ih =>
    by_cases h : x.rid == rid
    · rw [show (x :: xs).find? (fun r => r.rid == rid) = some x from
        List.find?_cons_of_pos xs h] at hf
      cases hf
      simp only [List.map_cons, h, if_true]
      exact List.find?_cons_of_pos _ (by simpa using h)
    · rw [show (x :: xs).find? (fun r => r.rid == rid)
          = xs.find? (fun r => r.rid == rid) from
        List.find?_cons_of_neg xs h] at hf
      have hx : (if x.rid == rid
          then { x with text := nt, rating := nr } else x) = x := by
        simp [h]
      simp only [List.map_cons, hx]
      rw [show ((x :: (xs.map (fun r =>
          if r.rid == rid then { r with text := nt, rating := nr }
          else r)))).find? (fun r => r.rid == rid)
            = (xs.map (fun r =>
              if r.rid == rid then { r with text := nt, rating := nr }
              else r)).find? (fun r => r.rid == rid) from
        List.find?_cons_of_neg _ h]
      exact ih hf

/-- C5: every Create, Update or Delete call that ends in a validation,
not-found or authorization failure detects it before any mutation: the
stores are unchanged and no recompute is invoked. -/
theorem C5_error_no_side_effects (st : St) (u g : String)
    (text : Option String) (rating : JReq) (now : Nat)
    (rid2 : Nat) (u2 : String) (text2 : Option String) (rating2 : JReq)
    (rid3 : Nat) (u3 : String) (adm : Bool) (f1 f2 f3 : Bool) :
    (((addReview st u g text rating now f1).1 = .validationError ∨
      (addReview st u g text rating now f1).1 = .notFoundError ∨
      (addReview st u g text rating now f1).1 = .authorizationError) →
      (addReview st u g text rating now f1).2.1 = st ∧
      (addReview st u g text rating now f1).2.2 = 0) ∧
    (((updateReview st rid2 u2 text2 rating2 f2).1 = .validationError ∨
      (updateReview st rid2 u2 text2 rating2 f2).1 = .notFoundError ∨
      (updateReview st rid2 u2 text2 rating2 f2).1 = .authorizationError) →
      (updateReview st rid2 u2 text2 rating2 f2).2.1 = st ∧
      (updateReview st rid2 u2 text2 rating2 f2).2.2 = 0) ∧
    (((deleteReview st rid3 u3 adm f3).1 = .validationError ∨
      (deleteReview st rid3 u3 adm f3).1 = .notFoundError ∨
      (deleteReview st rid3 u3 adm f3).1 = .authorizationError) →
      (deleteReview st rid3 u3 adm f3).2.1 = st ∧
      (deleteReview st rid3 u3 adm f3).2.2 = 0) := by
  refine ⟨?_, ?_, ?_⟩
  · cases f1 <;>
      (unfold addReview
       repeat' split
       all_goals simp_all [updateGameRatingE])
  · cases f2 <;>
      (unfold updateReview
       repeat' split
       all_goals simp_all [updateGameRatingE])
  · cases f3 <;>
      (unfold deleteReview
       repeat' split
       all_goals try simp_all [updateGameRatingE]
       all_goals repeat' split
       all_goals try simp_all [updateGameRatingE])

/-- Witness for C5: a non-owner attempting an update gets an authorization
failure and the state is untouched with zero recomputes. -/
theorem C5_error_no_side_effects_witness :
    (updateReview stD 0 "u2" (some "x") JReq.undef false).1
        = Outcome.authorizationError ∧
    (updateReview stD 0 "u2" (some "x") JReq.undef false).2.1 = stD ∧
    (updateReview stD 0 "u2" (some "x") JReq.undef false).2.2 = 0 := by
  have h := (C5_error_no_side_effects stD "u" "g" none JReq.undef 0
    0 "u2" (some "x") JReq.undef 0 "u" false false false false).2.1
    (Or.inr (Or.inr (by decide)))
  exact ⟨by decide, h.1, h.2⟩

/-- C6: a successful delete removes the review and triggers the recompute
exactly when the deleted review's stored rating was not null; when the
deleted review was the game's only valid rating, the game record is driven
back to average 0 and count 0. -/
theorem C6_delete_recompute (st : St) (rid : Nat) (u : String) (adm : Bool)
    (f : Bool) (rd : Review)
    (hf : st.reviews.find? (fun r => r.rid == rid) = some rd)
    (hok : (deleteReview st rid u adm f).1 = .deletedOk) :
    (deleteReview st rid u adm f).2.1.reviews
        = st.reviews.filter (fun r => ¬ r.rid == rid) ∧
    ((deleteReview st rid u adm f).2.2 = 1 ↔ rd.rating ≠ JVal.vnull) ∧
    (rd.rating ≠ JVal.vnull → ∀ gm, st.games.lookup rd.gameId = some gm →
      validRatingsOf (st.reviews.filter (fun r => ¬ r.rid == rid)) rd.gameId
          = [] →
      (deleteReview st rid u adm f).2.1.games.lookup rd.gameId
        = some { gm with averageRating := 0, totalRatings := 0 }) := by
  unfold deleteReview at hok ⊢
  rw [hf] at hok ⊢
  by_cases hperm : ¬ adm ∧ ¬ (rd.userId == u)
  · simp only [hperm, if_true] at hok
    cases hok
  · simp only [hperm, if_false] at hok ⊢
    by_cases hr : rd.rating != JVal.vnull
    · simp only [hr, if_true] at hok ⊢
      cases f with
      | true => simp [updateGameRatingE] at hok
      | false =>
        simp only [updateGameRatingE, Bool.false_eq_true, if_false] at hok ⊢
        have hr' : rd.rating ≠ JVal.vnull := by simpa using hr
        refine ⟨rfl, by simpa using hr', ?_⟩
        intro _ gm hgm hempty
        have hlen : ((reviewsForGame
            (st.reviews.filter (fun r => ¬ r.rid == rid)) rd.gameId).filter
              (fun r => isValidRating r.rating)).length = 0 := by
          have := congrArg List.length hempty
          simpa [validRatingsOf] using this
        have hnil : (reviewsForGame
            (st.reviews.filter (fun r => ¬ r.rid == rid)) rd.gameId).filter
              (fun r => isValidRating r.rating) = [] :=
          List.length_eq_zero.mp hlen
        simp only [updateGameRating, tally_eq, hnil, List.map_nil,
          List.sum_nil, List.length_nil, lookup_applyRatingUpdate]
        rw [hgm]
        simp
    · simp only [hr, if_false] at hok ⊢
      have hr' : rd.rating = JVal.vnull := by simpa using hr
      refine ⟨rfl, by simp [hr'], ?_⟩
      intro hcontra
      simp [hr'] at hcontra

/-- Witness for C6: the owner deletes the only rated review of g1; the
review list becomes empty, one recompute runs and the game record returns
to average 0, count 0. -/
theorem C6_delete_recompute_witness :
    (stD.reviews.find? (fun r => r.rid == 0)
        = some (mkReview 0 "u1" "g1" (some "old") (JVal.vnum 4))) ∧
    ((deleteReview stD 0 "u1" false false).1 = Outcome.deletedOk) ∧
    (deleteReview stD 0 "u1" false false).2.1.reviews
        = stD.reviews.filter (fun r => ¬ r.rid == 0) ∧
    ((deleteReview stD 0 "u1" false false).2.2 = 1 ↔
      (mkReview 0 "u1" "g1" (some "old") (JVal.vnum 4)).rating ≠ JVal.vnull) ∧
    (deleteReview stD 0 "u1" false false).2.1.games.lookup "g1"
        = some { sampleGame with averageRating := 0, totalRatings := 0 } := by
  have h := C6_delete_recompute stD 0 "u1" false false
    (mkReview 0 "u1" "g1" (some "old") (JVal.vnum 4)) (by decide) (by decide)
  refine ⟨by decide, by decide, h.1, h.2.1, ?_⟩
  exact h.2.2 (by decide) sampleGame (by decide) (by decide)

/-- C10: a successful update overwrites both stored fields unconditionally:
the stored review keeps its identity fields but its text becomes the
request text when truthy and null otherwise, and its rating becomes the
parsed request rating when truthy and null otherwise — omitted fields are
not preserved. -/
theorem C10_update_overwrites (st : St) (rid : Nat) (u : String)
    (text : Option String) (rating : JReq) (f : Bool) (rd : Review)
    (hf : st.reviews.find? (fun r => r.rid == rid) = some rd)
    (hok : (updateReview st rid u text rating f).1 = .updatedOk) :
    ∃ rr, (updateReview st rid u text rating f).2.1.reviews.find?
        (fun r => r.rid == rid) = some rr ∧
      rr.userId = rd.userId ∧ rr.gameId = rd.gameId ∧ rr.posted = rd.posted ∧
      rr.text = (if textTruthy text then text else none) ∧
      rr.rating = (if rating.truthy then
          JVal.vnum ((jsParseInt rating.value : ℤ) : ℚ) else JVal.vnull) ∧
      (textTruthy text = false → rr.text = none) ∧
      (rating.truthy = false → rr.rating = JVal.vnull) := by
  unfold updateReview at hok ⊢
  rw [hf] at hok ⊢
  by_cases hown : rd.userId != u
  · simp only [hown, if_true] at hok
    cases hok
  · simp only [hown, if_false] at hok ⊢
    by_cases hv1 : ¬ textTruthy text ∧ ¬ rating.truthy
    · simp only [hv1, if_true] at hok
      cases hok
    · simp only [hv1, if_false] at hok ⊢
      by_cases hv2 : rating.truthy ∧ (rating.value < 1 ∨ 5 < rating.value)
      · simp only [hv2, if_true] at hok
        cases hok
      · simp only [hv2, if_false] at hok ⊢
        have hfind := find_map_overwrite st.reviews rid rd
          (if textTruthy text then text else none)
          (if rating.truthy then
            JVal.vnum ((jsParseInt rating.value : ℤ) : ℚ) else JVal.vnull) hf
        by_cases hch : ¬ jsStrictEq rating rd.rating
        · simp only [hch, if_true] at hok ⊢
          cases f with
          | true => simp [updateGameRatingE] at hok
          | false =>
            simp only [updateGameRatingE, Bool.false_eq_true, if_false]
            refine ⟨{ rd with
                text := if textTruthy text then text else none,
                rating := if rating.truthy then
                    JVal.vnum ((jsParseInt rating.value : ℤ) : ℚ)
                  else JVal.vnull }, ?_, rfl, rfl, rfl, rfl, rfl, ?_, ?_⟩
            · simp only [updateGameRating]
              exact hfind
            · intro ht; simp [ht]
            · intro hrt; simp [hrt]
        · simp only [hch, if_false]
          refine ⟨{ rd with
              text := if textTruthy text then text else none,
              rating := if rating.truthy then
                  JVal.vnum ((jsParseInt rating.value : ℤ) : ℚ)
                else JVal.vnull }, ?_, rfl, rfl, rfl, rfl, rfl, ?_, ?_⟩
          · exact hfind
          · intro ht; simp [ht]
          · intro hrt; simp [hrt]

/-- Witness for C10: updating the rated review of g1 with a rating only
erases the stored text (set to null) and stores the new rating. -/
theorem C10_update_overwrites_witness :
    (stD.reviews.find? (fun r => r.rid == 0)
        = some (mkReview 0 "u1" "g1" (some "old") (JVal.vnum 4))) ∧
    ((updateReview stD 0 "u1" none (JReq.jnum 5) false).1
        = Outcome.updatedOk) ∧
    ∃ rr, (updateReview stD 0 "u1" none (JReq.jnum 5) false).2.1.reviews.find?
        (fun r => r.rid == 0) = some rr ∧
      rr.userId = (mkReview 0 "u1" "g1" (some "old") (JVal.vnum 4)).userId ∧
      rr.gameId = (mkReview 0 "u1" "g1" (some "old") (JVal.vnum 4)).gameId ∧
      rr.posted = (mkReview 0 "u1" "g1" (some "old") (JVal.vnum 4)).posted ∧
      rr.text = (if textTruthy none then none else none) ∧
      rr.rating = (if (JReq.jnum 5).truthy then
          JVal.vnum ((jsParseInt (JReq.jnum 5).value : ℤ) : ℚ)
        else JVal.vnull) ∧
      (textTruthy none = false → rr.text = none) ∧
      ((JReq.jnum 5).truthy = false → rr.rating = JVal.vnull) := by
  refine ⟨by decide, by decide, ?_⟩
  exact C10_update_overwrites stD 0 "u1" none (JReq.jnum 5) false
    (mkReview 0 "u1" "g1" (some "old") (JVal.vnum 4)) (by decide) (by decide)

/-- C2 counterexample: a text-only update of a review whose stored rating
is null succeeds, leaves the stored rating unchanged (null before and
after), yet triggers one recompute — because the absent request field
(undefined) is strictly distinct from the stored null.  The claim predicts
zero recomputes whenever the rating value did not change. -/
theorem C2_counterexample :
    (updateReview stC 0 "u1" (some "new") JReq.undef false).1
        = Outcome.updatedOk ∧
    (stC.reviews.find? (fun r => r.rid == 0)).map Review.rating
        = some JVal.vnull ∧
    ((updateReview stC 0 "u1" (some "new") JReq.undef false).2.1.reviews.find?
        (fun r => r.rid == 0)).map Review.rating = some JVal.vnull ∧
    (updateReview stC 0 "u1" (some "new") JReq.undef false).2.2 = 1 := by
  decide

/-- C2 (amended): for every update that succeeds, the recompute is
triggered exactly when the raw request rating value is not strictly equal
(in the JavaScript sense) to the previously stored rating value —
re-supplying the same numeric rating triggers zero recomputes, but an
omitted rating field compares as distinct from a stored null, so a
text-only update of a null-rated review triggers one recompute even though
the stored rating is unchanged. -/
theorem C2_update_recompute_iff (st : St) (rid : Nat) (u : String)
    (text : Option String) (rating : JReq) (f : Bool) (rd : Review)
    (hf : st.reviews.find? (fun r => r.rid == rid) = some rd)
    (hok : (updateReview st rid u text rating f).1 = .updatedOk) :
    (updateReview st rid u text rating f).2.2
      = (if jsStrictEq rating rd.rating then 0 else 1) := by
  unfold updateReview at hok ⊢
  rw [hf] at hok ⊢
  by_cases hown : rd.userId != u
  · simp only [hown, if_true] at hok
    cases hok
  · simp only [hown, if_false] at hok ⊢
    by_cases hv1 : ¬ textTruthy text ∧ ¬ rating.truthy
    · simp only [hv1, if_true] at hok
      cases hok
    · simp only [hv1, if_false] at hok ⊢
      by_cases hv2 : rating.truthy ∧ (rating.value < 1 ∨ 5 < rating.value)
      · simp only [hv2, if_true] at hok
        cases hok
      · simp only [hv2, if_false] at hok ⊢
        by_cases hch : ¬ jsStrictEq rating rd.rating
        · simp only [hch, if_true] at hok ⊢
          have hcb : jsStrictEq rating rd.rating = false := by
            simpa using hch
          cases f with
          | true => simp [updateGameRatingE] at hok
          | false => simp [updateGameRatingE, hcb]
        · have hcb : jsStrictEq rating rd.rating = true := by
            simpa using hch
          simp [hch, hcb]

/-- Witness for the amended C2: updating the stored rating 4 to the
supplied rating 5 triggers exactly one recompute. -/
theorem C2_update_recompute_iff_witness :
    (stD.reviews.find? (fun r => r.rid == 0)
        = some (mkReview 0 "u1" "g1" (some "old") (JVal.vnum 4))) ∧
    ((updateReview stD 0 "u1" (some "new") (JReq.jnum 5) false).1
        = Outcome.updatedOk) ∧
    (updateReview stD 0 "u1" (some "new") (JReq.jnum 5) false).2.2
      = (if jsStrictEq (JReq.jnum 5)
            (mkReview 0 "u1" "g1" (some "old") (JVal.vnum 4)).rating
          then 0 else 1) := by
  refine ⟨by decide, by decide, ?_⟩
  exact C2_update_recompute_iff stD 0 "u1" (some "new") (JReq.jnum 5) false
    (mkReview 0 "u1" "g1" (some "old") (JVal.vnum 4)) (by decide) (by decide)

/-- C3 counterexample: a create request whose rating field holds the
number 0 — present and outside the closed range 1..5 — is not rejected
when text is supplied: the zero rating is falsy, so validation is skipped,
a review is persisted (with a null rating) and no recompute is invoked.
The claim predicts a ValidationError with nothing persisted. -/
theorem C3_counterexample :
    ((0 : ℚ) < 1) ∧
    (addReview stB "u1" "g1" (some "ok") (JReq.jnum 0) 7 false).1
        = Outcome.created 0 ∧
    (addReview stB "u1" "g1" (some "ok") (JReq.jnum 0) 7 false).2.1.reviews.length
        = 1 ∧
    (addReview stB "u1" "g1" (some "ok") (JReq.jnum 0) 7 false).2.2 = 0 := by
  decide

/-- C3 (amended): create fails with ValidationError when the rating is
present, truthy (a nonzero number) and outside 1..5 — a zero rating is
treated as an absent rating; it fails with ValidationError when both the
text and the rating are falsy (absent, empty or zero); and it fails with
NotFoundError when validation passes but the gameId does not resolve in
the Game Store.  In each failure the state is unchanged and no recompute
is invoked. -/
theorem C3_create_validation (st : St) (u g : String) (text : Option String)
    (rating : JReq) (now : Nat) (f : Bool) :
    (rating.truthy = true → (rating.value < 1 ∨ 5 < rating.value) →
      addReview st u g text rating now f = (.validationError, st, 0)) ∧
    (textTruthy text = false → rating.truthy = false →
      addReview st u g text rating now f = (.validationError, st, 0)) ∧
    ((textTruthy text = true ∨ rating.truthy = true) →
     (rating.truthy = true → 1 ≤ rating.value ∧ rating.value ≤ 5) →
     st.games.lookup g = none →
      addReview st u g text rating now f = (.notFoundError, st, 0)) := by
  refine ⟨?_, ?_, ?_⟩
  · intro h1 h2
    unfold addReview
    have hc1 : ¬ (¬ textTruthy text ∧ ¬ rating.truthy) := by simp [h1]
    rw [if_neg hc1, if_pos ⟨by simp [h1], h2⟩]
  · intro h1 h2
    unfold addReview
    rw [if_pos ⟨by simp [h1], by simp [h2]⟩]
  · intro h1 h2 h3
    unfold addReview
    have hc1 : ¬ (¬ textTruthy text ∧ ¬ rating.truthy) := by
      rcases h1 with h | h <;> simp [h]
    have hc2 : ¬ (rating.truthy ∧ (rating.value < 1 ∨ 5 < rating.value)) := by
      rintro ⟨ht, hr⟩
      rcases h2 ht with ⟨hge, hle⟩
      rcases hr with hlt | hgt
      · exact absurd hge (not_le.mpr hlt)
      · exact absurd hle (not_le.mpr hgt)
    rw [if_neg hc1, if_neg hc2, if_pos (by simp [h3])]

/-- Witness for the amended C3: a create request with the truthy
out-of-range rating 6 is rejected with a ValidationError and neither store
changes. -/
theorem C3_create_validation_witness :
    (JReq.jnum 6).truthy = true ∧
    ((JReq.jnum 6).value < 1 ∨ 5 < (JReq.jnum 6).value) ∧
    addReview stB "u1" "g1" none (JReq.jnum 6) 0 false
        = (Outcome.validationError, stB, 0) := by
  refine ⟨by decide, Or.inr (by decide), ?_⟩
  exact (C3_create_validation stB "u1" "g1" none (JReq.jnum 6) 0 false).1
    (by decide) (Or.inr (by decide))

/-- C4 counterexample: when the recompute raises a store error right after
a successful review creation, the create operation does not complete
successfully — it answers with the catch-all server error — although the
created review stays committed.  The claim predicts a successful
user-facing completion. -/
theorem C4_counterexample :
    (addReview stB "u1" "g1" none (JReq.jnum 5) 3 true).1
        = Outcome.serverError ∧
    (addReview stB "u1" "g1" none (JReq.jnum 5) 3 true).2.1.reviews
        = [{ rid := 0, userId := "u1", gameId := "g1", text := none,
             rating := JVal.vnum 5, posted := 3 }] ∧
    (addReview stB "u1" "g1" none (JReq.jnum 5) 3 true).2.2 = 1 := by
  decide

/-- C4 (amended): when the recompute step fails with a store error after a
successful review mutation, the rethrown error makes the operation answer
with a server error instead of succeeding, but the already-committed
review mutation is not undone (the review collection equals the one of the
fault-free run) and the game store is left untouched. -/
theorem C4_recompute_failure (st : St) (u g : String) (text : Option String)
    (rating : JReq) (now : Nat)
    (rid2 : Nat) (u2 : String) (text2 : Option String) (rating2 : JReq)
    (rid3 : Nat) (u3 : String) (adm : Bool) :
    ((addReview st u g text rating now true).2.2 = 1 →
      (addReview st u g text rating now true).1 = .serverError ∧
      (addReview st u g text rating now true).2.1.reviews
          = (addReview st u g text rating now false).2.1.reviews ∧
      (addReview st u g text rating now true).2.1.games = st.games) ∧
    ((updateReview st rid2 u2 text2 rating2 true).2.2 = 1 →
      (updateReview st rid2 u2 text2 rating2 true).1 = .serverError ∧
      (updateReview st rid2 u2 text2 rating2 true).2.1.reviews
          = (updateReview st rid2 u2 text2 rating2 false).2.1.reviews ∧
      (updateReview st rid2 u2 text2 rating2 true).2.1.games = st.games) ∧
    ((deleteReview st rid3 u3 adm true).2.2 = 1 →
      (deleteReview st rid3 u3 adm true).1 = .serverError ∧
      (deleteReview st rid3 u3 adm true).2.1.reviews
          = (deleteReview st rid3 u3 adm false).2.1.reviews ∧
      (deleteReview st rid3 u3 adm true).2.1.games = st.games) := by
  refine ⟨?_, ?_, ?_⟩
  · intro h
    unfold addReview at h ⊢
    by_cases c1 : ¬ textTruthy text ∧ ¬ rating.truthy
    · simp only [c1, if_true] at h
      simp at h
    · simp only [c1, if_false] at h ⊢
      by_cases c2 : rating.truthy ∧ (rating.value < 1 ∨ 5 < rating.value)
      · simp only [c2, if_true] at h
        simp at h
      · simp only [c2, if_false] at h ⊢
        by_cases c3 : (st.games.lookup g).isNone
        · simp only [c3, if_true] at h
          simp at h
        · simp only [c3, if_false] at h ⊢
          by_cases c4 : rating.truthy
          · simp only [c4, if_true]
            simp [updateGameRatingE, updateGameRating]
          · simp only [c4, if_false] at h
            simp at h
  · intro h
    unfold updateReview at h ⊢
    cases hfind : st.reviews.find? (fun r => r.rid == rid2) with
    | none =>
      rw [hfind] at h
      simp at h
    | some rd =>
      rw [hfind] at h
      by_cases c0 : rd.userId != u2
      · simp only [c0, if_true] at h
        simp at h
      · simp only [c0, if_false] at h ⊢
        by_cases c1 : ¬ textTruthy text2 ∧ ¬ rating2.truthy
        · simp only [c1, if_true] at h
          simp at h
        · simp only [c1, if_false] at h ⊢
          by_cases c2 : rating2.truthy ∧ (rating2.value < 1 ∨ 5 < rating2.value)
          · simp only [c2, if_true] at h
            simp at h
          · simp only [c2, if_false] at h ⊢
            by_cases c3 : ¬ jsStrictEq rating2 rd.rating
            · simp only [c3, if_true]
              simp [updateGameRatingE, updateGameRating]
            · simp only [c3, if_false] at h
              simp at h
  · intro h
    unfold deleteReview at h ⊢
    cases hfind : st.reviews.find? (fun r => r.rid == rid3) with
    | none =>
      rw [hfind] at h
      simp at h
    | some rd =>
      rw [hfind] at h
      by_cases c0 : ¬ adm ∧ ¬ (rd.userId == u3)
      · simp only [c0, if_true] at h
        simp at h
      · simp only [c0, if_false] at h ⊢
        by_cases c1 : rd.rating != JVal.vnull
        · simp only [c1, if_true]
          simp [updateGameRatingE, updateGameRating]
        · simp only [c1, if_false] at h
          simp at h

/-- Witness for the amended C4: the failing-recompute create of a rated
review answers with a server error, keeps the same review collection as
the fault-free run, and leaves the game store untouched. -/
theorem C4_recompute_failure_witness :
    (addReview stB "u1" "g1" none (JReq.jnum 5) 3 true).2.2 = 1 ∧
    ((addReview stB "u1" "g1" none (JReq.jnum 5) 3 true).1
        = Outcome.serverError ∧
     (addReview stB "u1" "g1" none (JReq.jnum 5) 3 true).2.1.reviews
        = (addReview stB "u1" "g1" none (JReq.jnum 5) 3 false).2.1.reviews ∧
     (addReview stB "u1" "g1" none (JReq.jnum 5) 3 true).2.1.games
        = stB.games) :=
  ⟨by decide,
   (C4_recompute_failure stB "u1" "g1" none (JReq.jnum 5) 3
     0 "u" none JReq.undef 0 "u" false).1 (by decide)⟩

end VGB
